import Mathlib

/-!
Verification of the zaptalk bot's conversation store and per-message turn
pipeline (src/zaptalk.py). Text is modelled as `List Char` (a Python string
is a sequence of code points); the Postgres table `user_memory` is a partial
map from user id to transcript; the model provider and storage availability
are oracles carried in a `World`. Raised exceptions become explicit branches:
the bare `except` in `chat` maps every storage or model failure to the fixed
fallback reply.
-/

/-- Python `str.strip()`: remove leading and trailing whitespace. -/
def pyStrip (s : List Char) : List Char :=
  ((s.dropWhile Char.isWhitespace).reverse.dropWhile Char.isWhitespace).reverse

/-- The persona template `HINATA_PERSONA` (lines 26-30 of the source). -/
def HINATA_PERSONA : List Char :=
  ("Act as Hinata Hyuga from Naruto. You're kind, shy, gentle, and soft-spoken. Use short, human-like sentences with sweet and soft emojis (like blush, heart, sparkles). Speak naturally and affectionately. You're replying like a cute anime girl chatting with a friend.").data

/-- The `user_memory` table: at most one row (a transcript) per user id;
`none` means no row exists for that user. -/
def Store : Type := Int → Option (List Char)

/-- `get_user_conversation`: SELECT the row for `user_id`; return its
`conversation` column when a row exists, otherwise the empty string. -/
def get_user_conversation (st : Store) (user_id : Int) : List Char :=
  match st user_id with
  | some conversation => conversation
  | none => []

/-- `save_user_conversation`: INSERT .. ON CONFLICT (user_id) DO UPDATE —
an upsert that replaces the row's `conversation` whether or not it existed. -/
def save_user_conversation (st : Store) (user_id : Int)
    (conversation : List Char) : Store :=
  fun u => if u = user_id then some conversation else st u

/-- The store effect of `reset_command`: it calls
`save_user_conversation(user_id, "")`. -/
def reset_command (st : Store) (user_id : Int) : Store :=
  save_user_conversation st user_id []

/-- The fixed rejection sent when validation fails (line 101). -/
def rejectionReply : List Char := ("Please send a shorter message.").data

/-- The fixed apologetic fallback sent from the `except` handler (line 122). -/
def fallbackReply : List Char := ("S-sorry... Something went wrong~").data

/-- The ellipsis marker appended after truncation (line 113). -/
def ellipsis : List Char := ("...").data

/-- The prompt f-string of line 108:
`f"{HINATA_PERSONA}\n\n{previous_convo}\nUser: {user_message}\nHinata:"`. -/
def mkPrompt (previous_convo user_message : List Char) : List Char :=
  HINATA_PERSONA ++ ("\n\n").data ++ previous_convo ++ ("\nUser: ").data
    ++ user_message ++ ("\nHinata:").data

/-- Lines 110-113: strip the completion, then truncate to 300 characters
plus the ellipsis marker when it is longer than 300. -/
def postProcess (completion : List Char) : List Char :=
  if (pyStrip completion).length > 300 then
    (pyStrip completion).take 300 ++ ellipsis
  else pyStrip completion

/-- The record appended to the transcript on a successful turn (line 115):
`f"\nUser: {user_message}\nHinata: {reply}"`. -/
def turnRecord (user_message reply : List Char) : List Char :=
  ("\nUser: ").data ++ user_message ++ ("\nHinata: ").data ++ reply

/-- The collaborators one turn interacts with: the current store contents,
whether each of the two store accesses raises (storage unavailability), and
the model oracle. The oracle returns `Except.error` for every provider
failure, including a malformed or empty completion (`response.text` raises
on those, and the bare `except` catches any exception alike). -/
structure World where
  store : Store
  getFails : Bool
  saveFails : Bool
  model : List Char → Except Unit (List Char)

/-- The observable outcome of one turn: the reply sent back, the store
contents afterwards, which collaborators were invoked, and which prompt (if
any) was submitted to the model. -/
structure ChatResult where
  reply : List Char
  store : Store
  getCalled : Bool
  modelCalled : Bool
  saveCalled : Bool
  promptSent : Option (List Char)

/-- The try/except block of `chat` (lines 106-122), entered after
validation with the stripped message. -/
def chatBody (w : World) (user_id : Int) (user_message : List Char) :
    ChatResult :=
  if w.getFails then
    { reply := fallbackReply, store := w.store, getCalled := true,
      modelCalled := false, saveCalled := false, promptSent := none }
  else
    match w.model (mkPrompt (get_user_conversation w.store user_id)
        user_message) with
    | Except.error _ =>
      { reply := fallbackReply, store := w.store, getCalled := true,
        modelCalled := true, saveCalled := false,
        promptSent := some (mkPrompt (get_user_conversation w.store user_id)
          user_message) }
    | Except.ok completion =>
      if w.saveFails then
        { reply := fallbackReply, store := w.store, getCalled := true,
          modelCalled := true, saveCalled := true,
          promptSent := some (mkPrompt (get_user_conversation w.store user_id)
            user_message) }
      else
        { reply := postProcess completion,
          store := save_user_conversation w.store user_id
            (get_user_conversation w.store user_id ++
              turnRecord user_message (postProcess completion)),
          getCalled := true, modelCalled := true, saveCalled := true,
          promptSent := some (mkPrompt (get_user_conversation w.store user_id)
            user_message) }

/-- One chat turn on the raw inbound text (lines 96-122): strip it, reject
it when empty or over 500 characters, otherwise run the try block. -/
def chat (w : World) (user_id : Int) (text : List Char) : ChatResult :=
  if pyStrip text = [] ∨ (pyStrip text).length > 500 then
    { reply := rejectionReply, store := w.store, getCalled := false,
      modelCalled := false, saveCalled := false, promptSent := none }
  else
    chatBody w user_id (pyStrip text)

/-- The prompt as the spec's scenario words it: persona text, one blank
line, the stored transcript, then directly the line `User: <message>` and
the cue, with no extra separators. -/
def specPrompt (previous_convo user_message : List Char) : List Char :=
  HINATA_PERSONA ++ ("\n\n").data ++ previous_convo ++ ("User: ").data
    ++ user_message ++ ("\nHinata:").data

/-- A healthy world with an empty store and a model that always answers
"Hi there!". -/
def testWorld : World :=
  { store := fun _ => none, getFails := false, saveFails := false,
    model := fun _ => Except.ok (("Hi there!").data) }

/-- C4: saving a transcript and then reading it back returns exactly that
transcript, whatever row (if any) existed for the user before. -/
theorem save_get_roundtrip (st : Store) (user_id : Int)
    (conversation : List Char) :
    get_user_conversation (save_user_conversation st user_id conversation)
      user_id = conversation := by
  simp [get_user_conversation, save_user_conversation]

/-- C5: reset is exactly a save of the empty transcript: afterwards `get`
returns the empty string whatever was stored before, and the row still
exists (cleared, not deleted). -/
theorem reset_equiv_save_empty (st : Store) (user_id : Int) :
    reset_command st user_id = save_user_conversation st user_id [] ∧
    get_user_conversation (reset_command st user_id) user_id = [] ∧
    reset_command st user_id user_id = some [] := by
  refine ⟨rfl, ?_, ?_⟩
  · simp [get_user_conversation, reset_command, save_user_conversation]
  · simp [reset_command, save_user_conversation]

/-- C6: when no row exists for the user, `get_user_conversation` returns
the empty string (it does not fail on a missing user). -/
theorem get_missing_returns_empty (st : Store) (user_id : Int)
    (h : st user_id = none) :
    get_user_conversation st user_id = [] := by
  simp [get_user_conversation, h]

theorem get_missing_returns_empty_rt :
    get_user_conversation (fun _ => none) 1 = [] :=
  get_missing_returns_empty (fun _ => none) 1 rfl

/-- C3: a message that strips to empty or to more than 500 characters is
answered with the fixed rejection, and neither the store nor the model is
touched: the stored transcript is unchanged. -/
theorem validation_rejects (w : World) (user_id : Int) (text : List Char)
    (h : pyStrip text = [] ∨ (pyStrip text).length > 500) :
    (chat w user_id text).reply = rejectionReply ∧
    (chat w user_id text).store = w.store ∧
    (chat w user_id text).getCalled = false ∧
    (chat w user_id text).modelCalled = false ∧
    (chat w user_id text).saveCalled = false := by
  unfold chat
  rw [if_pos h]
  exact ⟨rfl, rfl, rfl, rfl, rfl⟩

theorem validation_rejects_rt :
    (chat testWorld 1 []).reply = rejectionReply ∧
    (chat testWorld 1 []).store = testWorld.store ∧
    (chat testWorld 1 []).getCalled = false ∧
    (chat testWorld 1 []).modelCalled = false ∧
    (chat testWorld 1 []).saveCalled = false :=
  validation_rejects testWorld 1 [] (Or.inl rfl)

/-- C2: the completion is stripped; when the stripped completion exceeds 300
characters the reply is exactly its first 300 characters plus the ellipsis
marker, of length exactly 303; otherwise it is the stripped completion
unmodified. -/
theorem reply_truncation (completion : List Char) :
    ((pyStrip completion).length > 300 →
      postProcess completion = (pyStrip completion).take 300 ++ ellipsis ∧
      (postProcess completion).length = 303) ∧
    ((pyStrip completion).length ≤ 300 →
      postProcess completion = pyStrip completion) := by
  constructor
  · intro h
    have he : postProcess completion =
        (pyStrip completion).take 300 ++ ellipsis := by
      unfold postProcess
      rw [if_pos h]
    refine ⟨he, ?_⟩
    rw [he]
    have h3 : ellipsis.length = 3 := rfl
    simp only [List.length_append, List.length_take, h3]
    omega
  · intro h
    unfold postProcess
    rw [if_neg (by omega)]

set_option maxRecDepth 4000 in
theorem reply_truncation_rt :
    postProcess (List.replicate 301 'a') =
      (pyStrip (List.replicate 301 'a')).take 300 ++ ellipsis ∧
    (postProcess (List.replicate 301 'a')).length = 303 :=
  (reply_truncation (List.replicate 301 'a')).1 (by decide)

/-- A world whose store is unavailable on the read. -/
def downWorld : World := { testWorld with getFails := true }

/-- A world whose model call fails (provider failure, or a malformed or
empty completion, on which `response.text` raises). -/
def errWorld : World := { testWorld with model := fun _ => Except.error () }

/-- C7: when the store is unavailable during the context load, the turn
answers with the fixed fallback, no save happens, and the store contents
are unchanged; the error is absorbed, not propagated. -/
theorem storage_failure_fallback (w : World) (user_id : Int)
    (text : List Char)
    (hv : ¬(pyStrip text = [] ∨ (pyStrip text).length > 500))
    (hget : w.getFails = true) :
    (chat w user_id text).reply = fallbackReply ∧
    (chat w user_id text).saveCalled = false ∧
    (chat w user_id text).store = w.store := by
  unfold chat
  rw [if_neg hv]
  unfold chatBody
  rw [hget]
  exact ⟨rfl, rfl, rfl⟩

theorem storage_failure_fallback_rt :
    (chat downWorld 1 (("Hi").data)).reply = fallbackReply ∧
    (chat downWorld 1 (("Hi").data)).saveCalled = false ∧
    (chat downWorld 1 (("Hi").data)).store = downWorld.store :=
  storage_failure_fallback downWorld 1 (("Hi").data) (by decide) rfl

/-- C8: when the model call fails (which covers a malformed or empty
completion, since extracting the text of such a response raises), the turn
answers with the fixed fallback, persistence is skipped and the stored
transcript is unchanged. -/
theorem model_failure_fallback (w : World) (user_id : Int) (text : List Char)
    (hv : ¬(pyStrip text = [] ∨ (pyStrip text).length > 500))
    (hget : w.getFails = false)
    (herr : w.model (mkPrompt (get_user_conversation w.store user_id)
      (pyStrip text)) = Except.error ()) :
    (chat w user_id text).reply = fallbackReply ∧
    (chat w user_id text).saveCalled = false ∧
    (chat w user_id text).store = w.store := by
  unfold chat
  rw [if_neg hv]
  unfold chatBody
  rw [hget]
  simp [herr]

theorem model_failure_fallback_rt :
    (chat errWorld 1 (("Hi").data)).reply = fallbackReply ∧
    (chat errWorld 1 (("Hi").data)).saveCalled = false ∧
    (chat errWorld 1 (("Hi").data)).store = errWorld.store :=
  model_failure_fallback errWorld 1 (("Hi").data) (by decide) rfl rfl

/-- C9: a fully successful turn saves, under the user's id, the transcript
loaded at the start of the turn with exactly one record
`"\nUser: <message>\nHinata: <reply>"` appended, and sends that reply. -/
theorem success_appends_and_saves (w : World) (user_id : Int)
    (text completion : List Char)
    (hv : ¬(pyStrip text = [] ∨ (pyStrip text).length > 500))
    (hget : w.getFails = false) (hsave : w.saveFails = false)
    (hm : w.model (mkPrompt (get_user_conversation w.store user_id)
      (pyStrip text)) = Except.ok completion) :
    (chat w user_id text).store user_id =
      some (get_user_conversation w.store user_id ++ ("\nUser: ").data ++
        pyStrip text ++ ("\nHinata: ").data ++ postProcess completion) ∧
    (chat w user_id text).reply = postProcess completion := by
  unfold chat
  rw [if_neg hv]
  unfold chatBody
  rw [hget]
  simp [hm, hsave, save_user_conversation, turnRecord]

theorem success_appends_and_saves_rt :
    (chat testWorld 1 (("Hello").data)).store 1 =
      some (("\nUser: Hello\nHinata: Hi there!").data) ∧
    (chat testWorld 1 (("Hello").data)).reply = ("Hi there!").data := by
  have h := success_appends_and_saves testWorld 1 (("Hello").data)
    (("Hi there!").data) (by decide) rfl rfl rfl
  refine ⟨?_, ?_⟩
  · rw [h.1]
    decide
  · rw [h.2]
    decide

set_option linter.unusedVariables false in
/-- C10: the 500-character limit is checked on the stripped message: when
the raw text is over 500 characters but strips to a non-empty message of at
most 500 characters, the turn is not rejected — it runs the try block on
the stripped message, so the store read is attempted. -/
theorem limit_applies_to_trimmed (w : World) (user_id : Int)
    (text : List Char) (hraw : text.length > 500)
    (hne : pyStrip text ≠ []) (hlen : (pyStrip text).length ≤ 500) :
    chat w user_id text = chatBody w user_id (pyStrip text) ∧
    (chat w user_id text).getCalled = true := by
  have hv : ¬(pyStrip text = [] ∨ (pyStrip text).length > 500) := by
    push_neg
    exact ⟨hne, by omega⟩
  have he : chat w user_id text = chatBody w user_id (pyStrip text) := by
    unfold chat
    rw [if_neg hv]
  refine ⟨he, ?_⟩
  rw [he]
  unfold chatBody
  cases hg : w.getFails with
  | true => simp
  | false =>
    cases hmr : w.model (mkPrompt (get_user_conversation w.store user_id)
        (pyStrip text)) with
    | error e => simp [hmr]
    | ok c =>
      cases hs : w.saveFails with
      | true => simp [hmr, hs]
      | false => simp [hmr, hs]

/-- A raw text of 501 characters whose stripped form is "Hi". -/
def paddedText : List Char := ("Hi").data ++ List.replicate 499 ' '

set_option maxRecDepth 8000 in
theorem limit_applies_to_trimmed_rt :
    chat testWorld 1 paddedText = chatBody testWorld 1 (pyStrip paddedText) ∧
    (chat testWorld 1 paddedText).getCalled = true :=
  limit_applies_to_trimmed testWorld 1 paddedText (by decide) (by decide)
    (by decide)

set_option maxRecDepth 16000 in
/-- C1 counterexample: with an empty prior transcript and message "Hello",
the prompt the pipeline submits is not the spec's worded concatenation —
the code inserts a newline before the `User:` line, so after the persona
and the blank line there is an extra separator. -/
theorem prompt_has_extra_newline :
    (chat testWorld 1 (("Hello").data)).promptSent ≠
      some (specPrompt [] (("Hello").data)) := by
  decide

/-- C1 (amended): the prompt submitted to the model is exactly the persona
template, a blank line ("\n\n"), the stored transcript, then the line
"\nUser: <message>" (with its leading newline), then the cue "\nHinata:". -/
theorem chat_prompt_shape (w : World) (user_id : Int) (text : List Char)
    (hne : pyStrip text ≠ []) (hlen : (pyStrip text).length ≤ 500)
    (hget : w.getFails = false) :
    (chat w user_id text).promptSent =
      some (HINATA_PERSONA ++ ("\n\n").data ++
        get_user_conversation w.store user_id ++ ("\nUser: ").data ++
        pyStrip text ++ ("\nHinata:").data) := by
  have hv : ¬(pyStrip text = [] ∨ (pyStrip text).length > 500) := by
    push_neg
    exact ⟨hne, by omega⟩
  unfold chat
  rw [if_neg hv]
  unfold chatBody
  rw [hget]
  cases hmr : w.model (mkPrompt (get_user_conversation w.store user_id)
      (pyStrip text)) with
  | error e => simp [hmr, mkPrompt]
  | ok c =>
    cases hs : w.saveFails with
    | true => simp [hmr, hs, mkPrompt]
    | false => simp [hmr, hs, mkPrompt]

theorem chat_prompt_shape_rt :
    (chat testWorld 1 (("Hello").data)).promptSent =
      some (HINATA_PERSONA ++ ("\n\n").data ++
        get_user_conversation testWorld.store 1 ++ ("\nUser: ").data ++
        pyStrip (("Hello").data) ++ ("\nHinata:").data) :=
  chat_prompt_shape testWorld 1 (("Hello").data) (by decide) (by decide) rfl
